import Mathlib

/-!
Verification of the pagination / filtering view-state core of
`src/app.js` (PhotoShare front end).

The embedding covers the `PhotoGallery` static class (view state,
`loadPhotos`, `goToPage`, `searchPhotos`), the query-parameter
construction inside `PhotoService.getPhotos`, the pagination-window
computation of `UIComponents.createPagination`, and the current-user
resolution of `AuthService.getCurrentUser` that guards
`PhotoService.addComment` and `PhotoService.ratePhoto`.

Network effects are made explicit: a refetch is parameterized by the
outcome the environment gives to the single awaited request, and each
operation reports the list of requests it issued, whether an error
propagated to the caller, and whether the error notification was shown.
-/

/-- `CONFIG.ITEMS_PER_PAGE` (src/app.js line 6). -/
def ITEMS_PER_PAGE : Int := 12

/-- The filter object held by `PhotoGallery.filters`
(src/app.js lines 492-497): search text, sort order, location,
minimum rating. -/
structure Filters where
  search : String
  sort : String
  location : String
  minRating : Int
  deriving DecidableEq

/-- A photo record. `PhotoSummary` is opaque to the view-state core
(it is passed through unchanged to rendering), so only an identity
field is modelled. -/
structure Photo where
  id : Int
  deriving DecidableEq

/-- The `pagination` object of a `/photos` response:
`{ pages: int, total: int }`, either field possibly absent. -/
structure Pagination where
  pages : Option Int
  total : Option Int
  deriving DecidableEq

/-- A `/photos` response `{ photos: [...], pagination: {...} }`, either
field possibly absent; `loadPhotos` applies the defaults
`response.photos || []` and `response.pagination?.pages || 1`. -/
structure PhotosResponse where
  photos : Option (List Photo)
  pagination : Option Pagination
  deriving DecidableEq

/-- `response.pagination?.pages || 1` (src/app.js line 504): an absent
`pagination` object, an absent `pages` field, and the falsy value `0`
all default to 1; any other number (including a negative one) passes
through unchanged. -/
def pagesOrDefault (r : PhotosResponse) : Int :=
  match r.pagination with
  | none => 1
  | some pg =>
    match pg.pages with
    | none => 1
    | some v => if v = 0 then 1 else v

/-- The flat parameter object built inside `PhotoService.getPhotos`
(src/app.js lines 171-175): `{ page, limit: CONFIG.ITEMS_PER_PAGE,
...filters }`. -/
structure QueryParams where
  page : Int
  limit : Int
  search : String
  sort : String
  location : String
  minRating : Int
  deriving DecidableEq

/-- The parameter construction of `PhotoService.getPhotos`
(src/app.js lines 170-176); the spec names it `buildQueryParams`.
The object spread copies every filter field next to `page` and the
fixed `limit`. -/
def buildQueryParams (page : Int) (filters : Filters) : QueryParams :=
  { page := page
    limit := ITEMS_PER_PAGE
    search := filters.search
    sort := filters.sort
    location := filters.location
    minRating := filters.minRating }

/-- The flat key/value pairs `URLSearchParams` serializes from the
parameter object (src/app.js line 126), in object insertion order. -/
def QueryParams.toPairs (q : QueryParams) : List (String × String) :=
  [("page", toString q.page), ("limit", toString q.limit),
   ("search", q.search), ("sort", q.sort), ("location", q.location),
   ("minRating", toString q.minRating)]

/-- The static view state of `PhotoGallery` (src/app.js lines 490-497):
current page, total pages, active filters, last-fetched photo list. -/
structure GalleryState where
  currentPage : Int
  totalPages : Int
  filters : Filters
  photos : List Photo
  deriving DecidableEq

/-- Outcome of the single `ApiService.get('/photos', params)` call made
by a refetch. `failure` covers both a network rejection and a non-ok
HTTP status: `ApiService.get` (src/app.js line 130) turns
`!response.ok` into a thrown error, and both cases propagate as a
thrown error to `loadPhotos`. -/
inductive FetchResult where
  | success (r : PhotosResponse)
  | failure
  deriving DecidableEq

/-- The statements of the `try` block of `PhotoGallery.loadPhotos`
(src/app.js lines 500-513), in source order. -/
inductive LoadStep where
  | fetchPhotos
  | assignPhotos
  | assignTotalPages
  | renderPhotos
  | renderPagination
  | updateStats
  deriving BEq, DecidableEq

/-- The `try` block body of `loadPhotos` in source order:
the awaited fetch (line 501), `this.photos = response.photos || []`
(line 503), `this.totalPages = response.pagination?.pages || 1`
(line 504), the two render calls (lines 506-507), and the stats update
(lines 510-512). -/
def loadPhotosBody : List LoadStep :=
  [LoadStep.fetchPhotos, LoadStep.assignPhotos, LoadStep.assignTotalPages,
   LoadStep.renderPhotos, LoadStep.renderPagination, LoadStep.updateStats]

/-- Execution state while running the body of `loadPhotos`: the gallery
state, the local `response` variable (set once the awaited fetch
resolves), and the fetch requests issued so far. -/
structure ExecState where
  gallery : GalleryState
  response : Option PhotosResponse
  requests : List QueryParams

/-- One statement of the `loadPhotos` try block; the `Bool` is `false`
when the statement throws. `renderPhotos` and `renderPagination` only
touch the DOM, never the view state. `updateStats` models
`document.getElementById('totalPhotos')?.textContent = ...`
(src/app.js line 511), guarded by `if (response.pagination)`
(line 510): an optional-chaining expression is not a valid assignment
target in ECMAScript, so the statement can never complete; it is
modelled as throwing whenever it executes. -/
def runStep (fetch : FetchResult) (s : ExecState) : LoadStep → ExecState × Bool
  | LoadStep.fetchPhotos =>
    let s2 := { s with requests :=
      s.requests ++ [buildQueryParams s.gallery.currentPage s.gallery.filters] }
    match fetch with
    | FetchResult.failure => (s2, false)
    | FetchResult.success r => ({ s2 with response := some r }, true)
  | LoadStep.assignPhotos =>
    match s.response with
    | some r => ({ s with gallery := { s.gallery with photos := r.photos.getD [] } }, true)
    | none => (s, true)
  | LoadStep.assignTotalPages =>
    match s.response with
    | some r => ({ s with gallery := { s.gallery with totalPages := pagesOrDefault r } }, true)
    | none => (s, true)
  | LoadStep.renderPhotos => (s, true)
  | LoadStep.renderPagination => (s, true)
  | LoadStep.updateStats =>
    match s.response with
    | some r =>
      match r.pagination with
      | some _ => (s, false)
      | none => (s, true)
    | none => (s, true)

/-- Run the statements in order; a throwing statement aborts the rest
(control transfers to the `catch` block). -/
def runSteps (fetch : FetchResult) : ExecState → List LoadStep → ExecState × Bool
  | s, [] => (s, true)
  | s, step :: rest =>
    match runStep fetch s step with
    | (s2, true) => runSteps fetch s2 rest
    | (s2, false) => (s2, false)

/-- Observable outcome of one `loadPhotos` call: the gallery state
afterwards, the fetch requests issued, whether an error propagated to
the caller, and whether the error notification was shown. The `catch`
block (src/app.js lines 515-519) shows the notification and rethrows,
so both flags coincide. -/
structure LoadResult where
  gallery : GalleryState
  requests : List QueryParams
  threw : Bool
  notified : Bool
  deriving DecidableEq

namespace PhotoGallery

/-- Initial `PhotoGallery.filters` (src/app.js lines 492-497). -/
def initialFilters : Filters :=
  { search := "", sort := "newest", location := "all", minRating := 0 }

/-- Initial view state: `currentPage = 1`, `totalPages = 1`, default
filters, no photos (src/app.js lines 11-23 and 490-497). -/
def initialState : GalleryState :=
  { currentPage := 1, totalPages := 1, filters := initialFilters, photos := [] }

/-- `PhotoGallery.loadPhotos` (src/app.js lines 499-520), parameterized
by the outcome `fetch` the environment gives the awaited request. -/
def loadPhotos (st : GalleryState) (fetch : FetchResult) : LoadResult :=
  match runSteps fetch { gallery := st, response := none, requests := [] } loadPhotosBody with
  | (s, ok) => { gallery := s.gallery, requests := s.requests, threw := !ok, notified := !ok }

/-- `PhotoGallery.goToPage` (src/app.js lines 580-586): guarded by
`page >= 1 && page <= this.totalPages`; in range it sets the current
page and refetches, out of range it does nothing. -/
def goToPage (st : GalleryState) (page : Int) (fetch : FetchResult) : LoadResult :=
  if 1 ≤ page ∧ page ≤ st.totalPages then
    loadPhotos { st with currentPage := page } fetch
  else
    { gallery := st, requests := [], threw := false, notified := false }

/-- `PhotoGallery.searchPhotos` (src/app.js lines 571-578), given the
text of the search box (the spec names this operation `setSearchTerm`):
sets `filters.search`, resets `currentPage` to 1, refetches. -/
def searchPhotos (st : GalleryState) (text : String) (fetch : FetchResult) : LoadResult :=
  loadPhotos { st with
    filters := { st.filters with search := text },
    currentPage := 1 } fetch

end PhotoGallery

namespace UIComponents

/-- `maxVisible` in `createPagination` (src/app.js line 346). -/
def maxVisible : Int := 5

/-- The first computation of `start` (src/app.js line 347):
`Math.max(1, currentPage - Math.floor(maxVisible / 2))`. -/
def windowStartInit (c : Int) : Int := max 1 (c - maxVisible / 2)

/-- `end` (src/app.js line 348):
`Math.min(totalPages, start + maxVisible - 1)`, computed from the
initial `start` and never recomputed afterwards. -/
def windowStop (c t : Int) : Int := min t (windowStartInit c + maxVisible - 1)

/-- The final `start` (src/app.js lines 350-352): slid back by
`Math.max(1, end - maxVisible + 1)` when the window is short. -/
def windowStart (c t : Int) : Int :=
  if windowStop c t - windowStartInit c + 1 < maxVisible then
    max 1 (windowStop c t - maxVisible + 1)
  else windowStartInit c

/-- The page numbers `start, start + 1, ..., stop` enumerated by the
`for` loop of src/app.js lines 366-371. -/
def pageRange (start stop : Int) : List Int :=
  (List.range (stop - start + 1).toNat).map (fun i => start + Int.ofNat i)

/-- Abstract pagination markup: the buttons and ellipses emitted by
`UIComponents.createPagination`, in order. -/
inductive PageItem where
  | prev (disabled : Bool)
  | page (n : Int) (active : Bool)
  | dots
  | next (disabled : Bool)
  deriving DecidableEq

/-- Items emitted left of the window (src/app.js lines 361-364): a
button for page 1 when `start > 1`, then dots when `start > 2`. -/
def leftEdgeItems (c t : Int) : List PageItem :=
  if 1 < windowStart c t then
    PageItem.page 1 false :: (if 2 < windowStart c t then [PageItem.dots] else [])
  else []

/-- Items emitted right of the window (src/app.js lines 373-376): when
`end < totalPages`, dots when `end < totalPages - 1` followed by a
button for the last page. -/
def rightEdgeItems (c t : Int) : List PageItem :=
  if windowStop c t < t then
    (if windowStop c t < t - 1 then [PageItem.dots] else []) ++ [PageItem.page t false]
  else []

/-- `UIComponents.createPagination` (src/app.js lines 344-385) as the
ordered list of controls it renders. -/
def createPagination (c t : Int) : List PageItem :=
  [PageItem.prev (c == 1)]
    ++ leftEdgeItems c t
    ++ (pageRange (windowStart c t) (windowStop c t)).map (fun i => PageItem.page i (i == c))
    ++ rightEdgeItems c t
    ++ [PageItem.next (c == t)]

end UIComponents

/-- A user record as persisted in local storage and held in
`appState.currentUser` (src/app.js lines 39-46 and 93-105). -/
structure User where
  id : Int
  username : String
  role : String
  deriving DecidableEq

namespace AuthService

/-- `AuthService.getCurrentUser` (src/app.js lines 93-105): the user
already held in `appState` when present, else the record persisted in
local storage, else null. (The code also caches a storage hit back
into `appState`; that write is invisible to the returned value.) -/
def getCurrentUser (appUser storedUser : Option User) : Option User :=
  match appUser with
  | some u => some u
  | none => storedUser

end AuthService

/-- Body of a POST issued by the photo service. -/
inductive PostBody where
  | comment (userId : Int) (text : String)
  | rating (userId : Int) (value : Int)
  deriving DecidableEq

namespace PhotoService

/-- `PhotoService.addComment` (src/app.js lines 201-209): throws before
any network call when no user resolves; otherwise returns the one POST
request `(endpoint, body)` it issues, whose body carries the id of the
resolved user as `user_id`. -/
def addComment (appUser storedUser : Option User) (photoId : Int) (text : String) :
    Except String (String × PostBody) :=
  match AuthService.getCurrentUser appUser storedUser with
  | none => Except.error "User must be logged in to comment"
  | some user =>
    Except.ok ("/photos/" ++ toString photoId ++ "/comments", PostBody.comment user.id text)

/-- `PhotoService.ratePhoto` (src/app.js lines 211-219): same
current-user precondition as `addComment`. -/
def ratePhoto (appUser storedUser : Option User) (photoId : Int) (rating : Int) :
    Except String (String × PostBody) :=
  match AuthService.getCurrentUser appUser storedUser with
  | none => Except.error "User must be logged in to rate"
  | some user =>
    Except.ok ("/photos/" ++ toString photoId ++ "/rate", PostBody.rating user.id rating)

end PhotoService

/-- The PageState invariant stated by the spec:
`1 ≤ currentPage ≤ totalPages`. -/
def GalleryInvariant (st : GalleryState) : Prop :=
  1 ≤ st.currentPage ∧ st.currentPage ≤ st.totalPages

instance (st : GalleryState) : Decidable (GalleryInvariant st) :=
  inferInstanceAs (Decidable (1 ≤ st.currentPage ∧ st.currentPage ≤ st.totalPages))

/-- Evaluation of `loadPhotos` on a failed fetch: the awaited request
throws before any assignment, so the catch block reports the error and
the state is untouched. -/
theorem loadPhotos_failure_eq (st : GalleryState) :
    PhotoGallery.loadPhotos st FetchResult.failure =
      { gallery := st,
        requests := [buildQueryParams st.currentPage st.filters],
        threw := true, notified := true } := rfl

/-- Evaluation of `loadPhotos` on a successful fetch: photos and total
pages are replaced with the defaulted response fields; the stats-update
statement then throws exactly when the response carries a `pagination`
object. -/
theorem loadPhotos_success_eq (st : GalleryState) (r : PhotosResponse) :
    PhotoGallery.loadPhotos st (FetchResult.success r) =
      { gallery := { st with photos := r.photos.getD [], totalPages := pagesOrDefault r },
        requests := [buildQueryParams st.currentPage st.filters],
        threw := r.pagination.isSome,
        notified := r.pagination.isSome } := by
  rcases r with ⟨ph, pg⟩
  cases pg <;> rfl

/-- A refetch preserves the page invariant provided a successful
response reports at least `currentPage` pages (and at least one). -/
theorem loadPhotos_preserves_invariant (st : GalleryState) (fetch : FetchResult)
    (h : GalleryInvariant st)
    (hr : ∀ r, fetch = FetchResult.success r →
      1 ≤ pagesOrDefault r ∧ st.currentPage ≤ pagesOrDefault r) :
    GalleryInvariant (PhotoGallery.loadPhotos st fetch).gallery := by
  cases fetch with
  | failure =>
    rw [loadPhotos_failure_eq]
    exact h
  | success r =>
    rw [loadPhotos_success_eq]
    exact ⟨h.1, (hr r rfl).2⟩

/-- C1: for every integer `n` with `1 ≤ n ≤ totalPages`, `goToPage n`
sets `currentPage` to `n` and issues exactly one fetch whose page
parameter is `n`; for `n` out of range it is a no-op: the whole gallery
state is unchanged and no fetch is issued. -/
theorem C1_goToPage_guard (st : GalleryState) (n : Int) (fetch : FetchResult) :
    (1 ≤ n ∧ n ≤ st.totalPages →
      (PhotoGallery.goToPage st n fetch).gallery.currentPage = n ∧
      (PhotoGallery.goToPage st n fetch).requests = [buildQueryParams n st.filters] ∧
      (PhotoGallery.goToPage st n fetch).requests.map QueryParams.page = [n]) ∧
    (n < 1 ∨ st.totalPages < n →
      (PhotoGallery.goToPage st n fetch).gallery = st ∧
      (PhotoGallery.goToPage st n fetch).requests = []) := by
  constructor
  · intro hin
    have hg : PhotoGallery.goToPage st n fetch =
        PhotoGallery.loadPhotos { st with currentPage := n } fetch := by
      unfold PhotoGallery.goToPage
      rw [if_pos hin]
    rw [hg]
    cases fetch with
    | failure => rw [loadPhotos_failure_eq]; exact ⟨rfl, rfl, rfl⟩
    | success r => rw [loadPhotos_success_eq]; exact ⟨rfl, rfl, rfl⟩
  · intro hout
    have hno : ¬ (1 ≤ n ∧ n ≤ st.totalPages) := by omega
    have hg : PhotoGallery.goToPage st n fetch =
        { gallery := st, requests := [], threw := false, notified := false } := by
      unfold PhotoGallery.goToPage
      rw [if_neg hno]
    rw [hg]
    exact ⟨rfl, rfl⟩

theorem C1_goToPage_guard_witness :
    (PhotoGallery.goToPage
      { currentPage := 1, totalPages := 5,
        filters := PhotoGallery.initialFilters, photos := [] }
      3 FetchResult.failure).gallery.currentPage = 3 ∧
    (PhotoGallery.goToPage
      { currentPage := 1, totalPages := 5,
        filters := PhotoGallery.initialFilters, photos := [] }
      6 FetchResult.failure).gallery =
      { currentPage := 1, totalPages := 5,
        filters := PhotoGallery.initialFilters, photos := [] } :=
  ⟨((C1_goToPage_guard _ 3 FetchResult.failure).1 (by decide)).1,
   ((C1_goToPage_guard _ 6 FetchResult.failure).2 (by decide)).1⟩

/-- C2: a failed photo fetch (network failure or non-ok HTTP status)
leaves `currentPage`, the filters, the held photo list, and
`totalPages` exactly as they were; no field is partially updated, and
the error is surfaced both to the caller (rethrown) and to the
notification surface. -/
theorem C2_failed_fetch_frame (st : GalleryState) :
    (PhotoGallery.loadPhotos st FetchResult.failure).gallery.currentPage = st.currentPage ∧
    (PhotoGallery.loadPhotos st FetchResult.failure).gallery.filters = st.filters ∧
    (PhotoGallery.loadPhotos st FetchResult.failure).gallery.photos = st.photos ∧
    (PhotoGallery.loadPhotos st FetchResult.failure).gallery.totalPages = st.totalPages ∧
    (PhotoGallery.loadPhotos st FetchResult.failure).gallery = st ∧
    (PhotoGallery.loadPhotos st FetchResult.failure).threw = true ∧
    (PhotoGallery.loadPhotos st FetchResult.failure).notified = true := by
  rw [loadPhotos_failure_eq]
  exact ⟨rfl, rfl, rfl, rfl, rfl, rfl, rfl⟩

/-- C6: `searchPhotos x` (the operation the spec calls
`setSearchTerm`) sets `filters.search` to `x`, resets `currentPage` to
1 regardless of the prior page, and triggers exactly one refetch at
page 1 with the updated filters. -/
theorem C6_searchPhotos_resets_page (st : GalleryState) (x : String) (fetch : FetchResult) :
    (PhotoGallery.searchPhotos st x fetch).gallery.filters.search = x ∧
    (PhotoGallery.searchPhotos st x fetch).gallery.currentPage = 1 ∧
    (PhotoGallery.searchPhotos st x fetch).requests =
      [buildQueryParams 1 { st.filters with search := x }] ∧
    (PhotoGallery.searchPhotos st x fetch).requests.map QueryParams.page = [1] := by
  unfold PhotoGallery.searchPhotos
  cases fetch with
  | failure => rw [loadPhotos_failure_eq]; exact ⟨rfl, rfl, rfl, rfl⟩
  | success r => rw [loadPhotos_success_eq]; exact ⟨rfl, rfl, rfl, rfl⟩

/-- C10: on a successful fetch, `loadPhotos` modifies only the held
photo list and `totalPages`: `currentPage` and the filters are
unchanged; a response without a `photos` field yields an empty photo
list, and one without a `pagination.pages` field yields
`totalPages = 1`. -/
theorem C10_loadPhotos_frame (st : GalleryState) (r : PhotosResponse) :
    (PhotoGallery.loadPhotos st (FetchResult.success r)).gallery.currentPage = st.currentPage ∧
    (PhotoGallery.loadPhotos st (FetchResult.success r)).gallery.filters = st.filters ∧
    (PhotoGallery.loadPhotos st (FetchResult.success r)).gallery.photos = r.photos.getD [] ∧
    (PhotoGallery.loadPhotos st (FetchResult.success r)).gallery.totalPages = pagesOrDefault r ∧
    (r.photos = none →
      (PhotoGallery.loadPhotos st (FetchResult.success r)).gallery.photos = []) ∧
    (r.pagination = none →
      (PhotoGallery.loadPhotos st (FetchResult.success r)).gallery.totalPages = 1) ∧
    (∀ pg, r.pagination = some pg → pg.pages = none →
      (PhotoGallery.loadPhotos st (FetchResult.success r)).gallery.totalPages = 1) := by
  rw [loadPhotos_success_eq]
  refine ⟨rfl, rfl, rfl, rfl, ?_, ?_, ?_⟩
  · intro h
    rw [h]
    rfl
  · intro h
    simp [pagesOrDefault, h]
  · intro pg hpg hpages
    simp [pagesOrDefault, hpg, hpages]

theorem C10_loadPhotos_frame_witness :
    (PhotoGallery.loadPhotos PhotoGallery.initialState
      (FetchResult.success { photos := none, pagination := none })).gallery.photos = [] ∧
    (PhotoGallery.loadPhotos PhotoGallery.initialState
      (FetchResult.success { photos := none, pagination := none })).gallery.totalPages = 1 :=
  ⟨(C10_loadPhotos_frame PhotoGallery.initialState
      { photos := none, pagination := none }).2.2.2.2.1 rfl,
   (C10_loadPhotos_frame PhotoGallery.initialState
      { photos := none, pagination := none }).2.2.2.2.2.1 rfl⟩

/-- C3: for `1 ≤ c ≤ t` the pagination window `[start..stop]` computed
by `createPagination` (start `= max(1, c - floor(5 / 2))`, stop
`= min(t, start + 4)`, start slid back to `max(1, stop - 4)` when the
window is short) always holds exactly `min 5 t` page numbers and
contains the current page; in particular for `t = 20, c = 10` it is
`[8..12]` and for `t = 3, c = 1` it is `[1..3]`. -/
theorem C3_pagination_window :
    (∀ c t : Int, 1 ≤ c → c ≤ t →
      UIComponents.windowStop c t - UIComponents.windowStart c t + 1 = min 5 t ∧
      (UIComponents.pageRange (UIComponents.windowStart c t)
        (UIComponents.windowStop c t)).length = (min 5 t).toNat ∧
      UIComponents.windowStart c t ≤ c ∧ c ≤ UIComponents.windowStop c t) ∧
    UIComponents.windowStart 10 20 = 8 ∧ UIComponents.windowStop 10 20 = 12 ∧
    UIComponents.pageRange 8 12 = [8, 9, 10, 11, 12] ∧
    UIComponents.windowStart 1 3 = 1 ∧ UIComponents.windowStop 1 3 = 3 ∧
    UIComponents.pageRange 1 3 = [1, 2, 3] := by
  have hkey : ∀ c t : Int, 1 ≤ c → c ≤ t →
      UIComponents.windowStop c t - UIComponents.windowStart c t + 1 = min 5 t ∧
      UIComponents.windowStart c t ≤ c ∧ c ≤ UIComponents.windowStop c t := by
    intro c t h1 h2
    unfold UIComponents.windowStart UIComponents.windowStop UIComponents.windowStartInit
      UIComponents.maxVisible
    split <;> omega
  refine ⟨?_, by decide, by decide, by decide, by decide, by decide, by decide⟩
  intro c t h1 h2
  have hlen : (UIComponents.pageRange (UIComponents.windowStart c t)
      (UIComponents.windowStop c t)).length =
      (UIComponents.windowStop c t - UIComponents.windowStart c t + 1).toNat := by
    unfold UIComponents.pageRange
    rw [List.length_map, List.length_range]
  exact ⟨(hkey c t h1 h2).1, by rw [hlen, (hkey c t h1 h2).1],
    (hkey c t h1 h2).2.1, (hkey c t h1 h2).2.2⟩

theorem C3_pagination_window_witness :
    UIComponents.windowStop 10 20 - UIComponents.windowStart 10 20 + 1 = min 5 20 ∧
    UIComponents.windowStart 10 20 ≤ 10 ∧ (10:Int) ≤ UIComponents.windowStop 10 20 :=
  ⟨(C3_pagination_window.1 10 20 (by decide) (by decide)).1,
   (C3_pagination_window.1 10 20 (by decide) (by decide)).2.2.1,
   (C3_pagination_window.1 10 20 (by decide) (by decide)).2.2.2⟩

/-- C4 fails as stated: from the valid state `currentPage = 10,
totalPages = 10`, a successful refetch whose response reports
`pagination.pages = 3` leaves `currentPage = 10 > totalPages = 3`,
breaking the invariant `1 ≤ currentPage ≤ totalPages`. -/
theorem C4_invariant_counterexample :
    GalleryInvariant
      { currentPage := 10, totalPages := 10,
        filters := PhotoGallery.initialFilters, photos := [] } ∧
    ¬ GalleryInvariant (PhotoGallery.loadPhotos
        { currentPage := 10, totalPages := 10,
          filters := PhotoGallery.initialFilters, photos := [] }
        (FetchResult.success
          { photos := none,
            pagination := some { pages := some 3, total := none } })).gallery := by
  decide

/-- C4 (amended): the invariant `1 ≤ currentPage ≤ totalPages` holds in
the initial state and is preserved by `goToPage`, `searchPhotos`, and
refetch, provided every successful response yields a computed page
count (`pagination.pages`, defaulting to 1 when absent or zero) that is
at least 1 and at least the page being fetched; a successful refetch
whose response reports fewer pages than the current page breaks the
invariant. Out-of-range page requests are rejected as no-ops, never
clamped. -/
theorem C4_invariant_amended :
    GalleryInvariant PhotoGallery.initialState ∧
    (∀ st fetch, GalleryInvariant st →
      (∀ r, fetch = FetchResult.success r →
        1 ≤ pagesOrDefault r ∧ st.currentPage ≤ pagesOrDefault r) →
      GalleryInvariant (PhotoGallery.loadPhotos st fetch).gallery) ∧
    (∀ st page fetch, GalleryInvariant st →
      (∀ r, fetch = FetchResult.success r →
        1 ≤ pagesOrDefault r ∧ page ≤ pagesOrDefault r) →
      GalleryInvariant (PhotoGallery.goToPage st page fetch).gallery) ∧
    (∀ st text fetch, GalleryInvariant st →
      (∀ r, fetch = FetchResult.success r → 1 ≤ pagesOrDefault r) →
      GalleryInvariant (PhotoGallery.searchPhotos st text fetch).gallery) ∧
    (∀ st page fetch, page < 1 ∨ st.totalPages < page →
      (PhotoGallery.goToPage st page fetch).gallery = st) := by
  refine ⟨by decide, ?_, ?_, ?_, ?_⟩
  · intro st fetch h hr
    exact loadPhotos_preserves_invariant st fetch h hr
  · intro st page fetch h hr
    unfold PhotoGallery.goToPage
    by_cases hin : 1 ≤ page ∧ page ≤ st.totalPages
    · rw [if_pos hin]
      exact loadPhotos_preserves_invariant _ fetch ⟨hin.1, hin.2⟩ hr
    · rw [if_neg hin]
      exact h
  · intro st text fetch h hr
    obtain ⟨ha, hb⟩ := h
    unfold PhotoGallery.searchPhotos
    refine loadPhotos_preserves_invariant _ fetch ?_ ?_
    · show (1:Int) ≤ 1 ∧ (1:Int) ≤ st.totalPages
      omega
    · intro r hfr
      exact ⟨hr r hfr, hr r hfr⟩
  · intro st page fetch hout
    unfold PhotoGallery.goToPage
    rw [if_neg (by omega)]

theorem C4_invariant_amended_witness :
    GalleryInvariant (PhotoGallery.goToPage
      { currentPage := 1, totalPages := 5,
        filters := PhotoGallery.initialFilters, photos := [] }
      3 FetchResult.failure).gallery :=
  C4_invariant_amended.2.2.1 _ 3 FetchResult.failure (by decide)
    (fun r h => FetchResult.noConfusion h)

/-- C5 fails as stated: at `currentPage = 4, totalPages = 6` the window
is `[2..6]`, so `start > 1` and the page-1 edge button is rendered, but
no ellipsis accompanies it (the code adds the ellipsis only when
`start > 2`). -/
theorem C5_edge_counterexample :
    ¬ ((UIComponents.PageItem.page 1 false ∈ UIComponents.leftEdgeItems 4 6 ∧
        UIComponents.PageItem.dots ∈ UIComponents.leftEdgeItems 4 6) ↔
       1 < UIComponents.windowStart 4 6) := by
  decide

/-- C5 (amended): the edge button for page 1 is rendered exactly when
the window does not touch the left edge (`start > 1`), but its ellipsis
is rendered exactly when additionally a page lies strictly between page
1 and the window (`start > 2`); symmetrically, the edge button for the
last page is rendered exactly when `stop < t` and its ellipsis exactly
when `stop < t - 1`. -/
theorem C5_edge_buttons_amended (c t : Int) :
    (UIComponents.PageItem.page 1 false ∈ UIComponents.leftEdgeItems c t ↔
      1 < UIComponents.windowStart c t) ∧
    (UIComponents.PageItem.dots ∈ UIComponents.leftEdgeItems c t ↔
      2 < UIComponents.windowStart c t) ∧
    (UIComponents.PageItem.page t false ∈ UIComponents.rightEdgeItems c t ↔
      UIComponents.windowStop c t < t) ∧
    (UIComponents.PageItem.dots ∈ UIComponents.rightEdgeItems c t ↔
      UIComponents.windowStop c t < t - 1) := by
  refine ⟨?_, ?_, ?_, ?_⟩
  · by_cases h1 : 1 < UIComponents.windowStart c t
    · simp [UIComponents.leftEdgeItems, h1]
    · simp [UIComponents.leftEdgeItems, h1]
  · by_cases h2 : 2 < UIComponents.windowStart c t
    · have h1 : 1 < UIComponents.windowStart c t := by omega
      simp [UIComponents.leftEdgeItems, h1, h2]
    · by_cases h1 : 1 < UIComponents.windowStart c t
      · simp [UIComponents.leftEdgeItems, h1, h2]
      · simp [UIComponents.leftEdgeItems, h1, h2]
  · by_cases h3 : UIComponents.windowStop c t < t
    · simp [UIComponents.rightEdgeItems, h3]
    · simp [UIComponents.rightEdgeItems, h3]
  · by_cases h4 : UIComponents.windowStop c t < t - 1
    · have h3 : UIComponents.windowStop c t < t := by omega
      simp [UIComponents.rightEdgeItems, h3, h4]
    · by_cases h3 : UIComponents.windowStop c t < t
      · simp [UIComponents.rightEdgeItems, h3, h4]
      · simp [UIComponents.rightEdgeItems, h3, h4]

/-- C7: building query parameters is a pure function of
(page, filters, fixed page size): equal inputs give an equal parameter
set, every filter field is always included next to `page` and `limit`,
and an empty search text is serialized as an explicit empty-string
`search` parameter. -/
theorem C7_buildQueryParams_pure (page : Int) (filters : Filters) :
    (buildQueryParams page filters).toPairs.map Prod.fst =
      ["page", "limit", "search", "sort", "location", "minRating"] ∧
    ("page", toString page) ∈ (buildQueryParams page filters).toPairs ∧
    ("limit", toString ITEMS_PER_PAGE) ∈ (buildQueryParams page filters).toPairs ∧
    ("search", filters.search) ∈ (buildQueryParams page filters).toPairs ∧
    ("sort", filters.sort) ∈ (buildQueryParams page filters).toPairs ∧
    ("location", filters.location) ∈ (buildQueryParams page filters).toPairs ∧
    ("minRating", toString filters.minRating) ∈ (buildQueryParams page filters).toPairs ∧
    (filters.search = "" → ("search", "") ∈ (buildQueryParams page filters).toPairs) ∧
    (∀ page2 filters2, page = page2 → filters = filters2 →
      (buildQueryParams page filters).toPairs = (buildQueryParams page2 filters2).toPairs) := by
  refine ⟨rfl, ?_, ?_, ?_, ?_, ?_, ?_, ?_, ?_⟩
  · simp [buildQueryParams, QueryParams.toPairs]
  · simp [buildQueryParams, QueryParams.toPairs]
  · simp [buildQueryParams, QueryParams.toPairs]
  · simp [buildQueryParams, QueryParams.toPairs]
  · simp [buildQueryParams, QueryParams.toPairs]
  · simp [buildQueryParams, QueryParams.toPairs]
  · intro h
    simp [buildQueryParams, QueryParams.toPairs, h]
  · intro page2 filters2 hp hf
    rw [hp, hf]

theorem C7_buildQueryParams_pure_witness :
    ("search", "") ∈ (buildQueryParams 1 PhotoGallery.initialFilters).toPairs :=
  (C7_buildQueryParams_pure 1 PhotoGallery.initialFilters).2.2.2.2.2.2.2.1 rfl

/-- C8: when no current user resolves (none held in app state, none in
persisted storage) `addComment` and `ratePhoto` fail with their
validation errors and issue no network call; when a user resolves, the
one POST each issues carries the id of that user as `user_id`. -/
theorem C8_user_precondition (appUser storedUser : Option User) (photoId : Int)
    (text : String) (rating : Int) :
    (appUser = none → storedUser = none →
      PhotoService.addComment appUser storedUser photoId text =
        Except.error "User must be logged in to comment" ∧
      PhotoService.ratePhoto appUser storedUser photoId rating =
        Except.error "User must be logged in to rate") ∧
    (∀ u, AuthService.getCurrentUser appUser storedUser = some u →
      PhotoService.addComment appUser storedUser photoId text =
        Except.ok ("/photos/" ++ toString photoId ++ "/comments",
          PostBody.comment u.id text) ∧
      PhotoService.ratePhoto appUser storedUser photoId rating =
        Except.ok ("/photos/" ++ toString photoId ++ "/rate",
          PostBody.rating u.id rating)) := by
  constructor
  · intro ha hs
    subst ha
    subst hs
    exact ⟨rfl, rfl⟩
  · intro u hu
    cases appUser with
    | some v =>
      have hv : some v = some u := hu
      have hvu : v = u := Option.some.inj hv
      subst hvu
      exact ⟨rfl, rfl⟩
    | none =>
      cases storedUser with
      | some v =>
        have hv : some v = some u := hu
        have hvu : v = u := Option.some.inj hv
        subst hvu
        exact ⟨rfl, rfl⟩
      | none =>
        have hv : (none : Option User) = some u := hu
        exact Option.noConfusion hv

theorem C8_user_precondition_witness :
    PhotoService.addComment none none 7 "nice" =
      Except.error "User must be logged in to comment" ∧
    PhotoService.ratePhoto none none 7 4 =
      Except.error "User must be logged in to rate" :=
  (C8_user_precondition none none 7 "nice" 4).1 rfl rfl

/-- C9: the stats-update statement of `loadPhotos` assigns to the
result of an optional-chained call
(`document.getElementById('totalPhotos')?.textContent = ...`), an
invalid assignment target that cannot complete and is modelled as
failing when executed (per ECMAScript it is in fact an early syntax
error); whenever a successful response carries a `pagination` object
the call therefore ends in the catch block, yet the photo list and
`totalPages` were already updated, because both assignments precede the
stats statement in the body. -/
theorem C9_updateStats_invalid (st : GalleryState) (r : PhotosResponse)
    (pg : Pagination) (hpg : r.pagination = some pg) :
    (PhotoGallery.loadPhotos st (FetchResult.success r)).threw = true ∧
    (PhotoGallery.loadPhotos st (FetchResult.success r)).notified = true ∧
    (PhotoGallery.loadPhotos st (FetchResult.success r)).gallery.photos = r.photos.getD [] ∧
    (PhotoGallery.loadPhotos st (FetchResult.success r)).gallery.totalPages = pagesOrDefault r ∧
    loadPhotosBody.indexOf LoadStep.assignPhotos <
      loadPhotosBody.indexOf LoadStep.updateStats ∧
    loadPhotosBody.indexOf LoadStep.assignTotalPages <
      loadPhotosBody.indexOf LoadStep.updateStats := by
  rw [loadPhotos_success_eq]
  refine ⟨?_, ?_, rfl, rfl, by decide, by decide⟩
  · rw [hpg]
    rfl
  · rw [hpg]
    rfl

theorem C9_updateStats_invalid_witness :
    (PhotoGallery.loadPhotos PhotoGallery.initialState
      (FetchResult.success
        { photos := none,
          pagination := some { pages := some 2, total := some 24 } })).threw = true :=
  (C9_updateStats_invalid PhotoGallery.initialState
    { photos := none, pagination := some { pages := some 2, total := some 24 } }
    { pages := some 2, total := some 24 } rfl).1
